import Mathlib

/-!
Verification of the amqp-manager repository (src/amqp_manager.js).

The file shallowly embeds the machina finite-state machine
`AmqpConnectionFsm` together with the `AmqpManager` facade as an explicit
transition system: the mutable instance fields (`this.memory`, the cached
channel, the `closed`/`started` flags) become a `Sys` record, every
machina input (`this.handle(...)`) becomes an `Input`, and every external
stimulus (a promise resolving or rejecting, an emitter event on a handle,
a pending `setTimeout` firing, an application-level call) becomes an
`Act` consumed by `step`.  Transport connection and channel handles are
given numeric identities so that the set of open handles and the set of
registered listeners can be observed; emitted lifecycle events are
accumulated in an observation trace.
-/

/-! ## Configuration (the merged `this.config` used by the state machine) -/

structure TopoExchange where
  exchange : String
  type : String
  options : String
deriving DecidableEq, Repr

structure TopoQueue where
  queue : String
  options : String
deriving DecidableEq, Repr

structure TopoBinding where
  queue : String
  exchange : String
  pattern : String
deriving DecidableEq, Repr

structure ConnectionConfig where
  protocol : String
  user : String
  password : String
  host : String
  port : Nat
  vhost : String
deriving DecidableEq, Repr

structure ChannelConfig where
  prefetch : Nat
  confirm : Bool
deriving DecidableEq, Repr

structure Config where
  connection : ConnectionConfig
  channel : ChannelConfig
  exchanges : List TopoExchange
  queues : List TopoQueue
  bindings : List TopoBinding
deriving DecidableEq, Repr

/-! ## assertTopology (src/amqp_manager.js lines 8-21)

`assertTopology` runs `Promise.all` over the exchange declarations, then
(`.then`) over the queue declarations, then over the bindings.  Each
`Promise.all` collection completes as a whole before the next `.then`
callback runs, so at the level of completed collections the observable
operation order is: all exchange declarations, then all queue
declarations, then all bindings. -/

inductive TopoOp
  | assertExchange (exchange : String) (type : String) (options : String)
  | assertQueue (queue : String) (options : String)
  | bindQueue (queue : String) (exchange : String) (pattern : String)
deriving DecidableEq, Repr

def TopoOp.isBinding : TopoOp → Bool
  | .bindQueue _ _ _ => true
  | _ => false

def assertExchangesOps (c : Config) : List TopoOp :=
  c.exchanges.map fun e => TopoOp.assertExchange e.exchange e.type e.options

def assertQueuesOps (c : Config) : List TopoOp :=
  c.queues.map fun q => TopoOp.assertQueue q.queue q.options

def bindQueuesOps (c : Config) : List TopoOp :=
  c.bindings.map fun b => TopoOp.bindQueue b.queue b.exchange b.pattern

def assertTopologyOps (c : Config) : List TopoOp :=
  assertExchangesOps c ++ assertQueuesOps c ++ bindQueuesOps c

/-! ## The state machine's data -/

inductive FsmState
  | uninitialized
  | idle
  | connect
  | assert
  | connected
  | reconnect
  | error
  | close
deriving DecidableEq, Repr

/-- The machina inputs fed through `this.handle(...)`. -/
inductive Input
  | open_
  | connection_error
  | channel_error (msg : String)
  | channel_close
  | error_ (msg : String)
deriving DecidableEq, Repr

/-- Listener kinds that `handle.on(...)` can register. -/
inductive LKind
  | error_
  | close_
deriving DecidableEq, Repr

/-- `this.memory`: starts as the empty object `{}`; fields appear when
`_.assign` writes them. -/
structure Memory where
  connection : Option Nat
  channel : Option Nat
  reconnects : Option Nat
deriving DecidableEq, Repr

/-- The world of transport handles: identities of connections/channels
created so far, which are still open, and which listeners are registered
on each (via `.on`, removed by `removeAllListeners`). -/
structure Handles where
  nextConn : Nat
  nextChan : Nat
  openConns : List Nat
  openChans : List Nat
  connListeners : List (Nat × LKind)
  chanListeners : List (Nat × LKind)
deriving DecidableEq, Repr

/-- The facade's own fields (`this.closed`, `this._channel`, `this.started`). -/
structure MgrState where
  closed : Bool
  cachedChannel : Option Nat
  started : Bool
deriving DecidableEq, Repr

/-- Events the fsm emits (observed by the manager's constructor-registered
listeners), plus the topology operations completed on the channel, in
order of occurrence. -/
inductive Event
  | ready (memory : Memory)
  | reconnectEvt (reconnects : Nat) (wait_time_ms : Nat)
  | errorEvt (msg : String)
  | closeEvt
  | topo (op : TopoOp)
deriving DecidableEq, Repr

/-- Progress of the `assertTopology` promise chain: which `Promise.all`
collection is currently outstanding. -/
inductive TopoPhase
  | exchanges
  | queues
  | bindings
deriving DecidableEq, Repr

structure Sys where
  fsm : FsmState
  memory : Memory
  handles : Handles
  timers : List Nat
  pendingConnect : Bool
  pendingCreateChannel : Bool
  topoPhase : Option TopoPhase
  mgr : MgrState
  events : List Event
deriving DecidableEq, Repr

/-! ## Error classification (src/amqp_manager.js line 105)

`/PRECONDITION-FAILED/i.test(error.message)`: a case-insensitive substring
test of the error message against the literal PRECONDITION-FAILED. -/

def patAtFront : List Char → List Char → Bool
  | [], _ => true
  | _ :: _, [] => false
  | p :: ps, c :: cs => p == c && patAtFront ps cs

def patOccurs (pat : List Char) : List Char → Bool
  | [] => patAtFront pat []
  | c :: cs => patAtFront pat (c :: cs) || patOccurs pat cs

def preconditionFailed (msg : String) : Bool :=
  patOccurs "PRECONDITION-FAILED".data (msg.data.map Char.toUpper)

/-! ## Backoff (src/amqp_manager.js line 129)

`Math.min(Math.pow(2, reconnects) * 100, 60 * 1000)`. -/

def waitTimeMs (reconnects : Nat) : Nat :=
  min (2 ^ reconnects * 100) (60 * 1000)

/-! ## Listener and handle bookkeeping -/

def removeConnListeners (h : Handles) (id : Nat) : Handles :=
  { h with connListeners := h.connListeners.filter fun p => p.1 != id }

def removeChanListeners (h : Handles) (id : Nat) : Handles :=
  { h with chanListeners := h.chanListeners.filter fun p => p.1 != id }

def closeConn (h : Handles) (id : Nat) : Handles :=
  { h with openConns := h.openConns.erase id }

/-- `cleanHandlers` (lines 169-177): `removeAllListeners()` on the stored
connection and channel, when present.  It does not close either handle. -/
def cleanHandlers (s : Sys) : Sys :=
  let s1 := match s.memory.connection with
    | some id => { s with handles := removeConnListeners s.handles id }
    | none => s
  match s1.memory.channel with
  | some id => { s1 with handles := removeChanListeners s1.handles id }
  | none => s1

/-! ## Event emission

The manager's constructor (lines 207-226) registers listeners on the fsm
for `ready` (cache the channel), `close` (set the closed flag and drop the
cache) and `reconnect`/`error` (drop the cache).  machina's emitter is
synchronous, so emission applies these immediately. -/

def mgrDisconnect (m : MgrState) : MgrState :=
  if m.cachedChannel.isSome then { m with cachedChannel := none } else m

def applyMgrEvent (m : MgrState) : Event → MgrState
  | .ready mem => { m with cachedChannel := mem.channel }
  | .closeEvt => mgrDisconnect { m with closed := true }
  | .reconnectEvt _ _ => mgrDisconnect m
  | .errorEvt _ => mgrDisconnect m
  | .topo _ => m

def emit (s : Sys) (e : Event) : Sys :=
  { s with events := s.events ++ [e], mgr := applyMgrEvent s.mgr e }

/-- Completed channel operations are recorded in the trace; they are not
emitter events, so the manager's listeners do not run. -/
def appendOps (s : Sys) (ops : List TopoOp) : Sys :=
  { s with events := s.events ++ ops.map Event.topo }

/-! ## machina state entry actions (`_onEnter`) -/

def enter (s : Sys) : FsmState → Sys
  | .connect =>
      -- starts `Amqp.connect(amqpUrl, connection.options)`
      { s with pendingConnect := true }
  | .assert =>
      -- starts `this.memory.connection[channelType]()`
      { s with pendingCreateChannel := true }
  | .connected =>
      -- `this.emit('ready', this.memory)`
      emit s (.ready s.memory)
  | .reconnect =>
      -- `reconnects = (this.memory.reconnects || 0) + 1`; emit and
      -- schedule `setTimeout(..., waitTimeMs)`.  Note: no cleanup here.
      let n := s.memory.reconnects.getD 0 + 1
      let s1 := emit s (.reconnectEvt n (waitTimeMs n))
      { s1 with timers := s1.timers ++ [n] }
  | .error =>
      -- never entered by the source: no `transition('error')` exists
      emit (cleanHandlers s) (.errorEvt "")
  | .close =>
      let s1 := cleanHandlers s
      let s2 := match s1.memory.connection with
        | some id => { s1 with handles := closeConn s1.handles id }
        | none => s1
      emit s2 .closeEvt
  | _ => s

/-- machina `transition`: ignored when the target is the current state
(no re-entry), otherwise the state changes and `_onEnter` runs. -/
def transition (s : Sys) (t : FsmState) : Sys :=
  if s.fsm = t then s else enter { s with fsm := t } t

/-- machina `handle`: dispatch an input against the current state's
handlers; an input with no handler is dropped.  In `uninitialized` the
`'*'` handler defers the input and transitions to `idle`, where it is
replayed. -/
def handleInput (s : Sys) (i : Input) : Sys :=
  match s.fsm, i with
  | .uninitialized, .open_ => transition (transition s .idle) .connect
  | .uninitialized, _ => transition s .idle
  | .idle, .open_ => transition s .connect
  | .connect, .connection_error => transition s .reconnect
  | .connect, .error_ _ => transition s .reconnect
  | .assert, .connection_error => transition s .reconnect
  | .assert, .channel_close => transition s .reconnect
  | .assert, .channel_error msg =>
      if preconditionFailed msg then emit s (.errorEvt msg)
      else transition s .reconnect
  | .connected, .channel_error _ => transition s .reconnect
  | .connected, .connection_error => transition s .reconnect
  | .connected, .channel_close => transition s .reconnect
  | _, _ => s

/-! ## The facade's `channel()` method (lines 233-265) -/

inductive ChannelOutcome
  | rejectClosed
  | resolveCached (c : Nat)
  | waitReady (timeoutMs : Nat)
deriving DecidableEq, Repr

/-- The branch structure of `AmqpManager.prototype.channel`: reject when
closed; else resolve the cached channel; else (starting the fsm on the
first such call) race a 2000 ms timeout against the next `ready`. -/
def channelCall (m : MgrState) : ChannelOutcome × MgrState :=
  if m.closed then (.rejectClosed, m)
  else match m.cachedChannel with
    | some ch => (.resolveCached ch, m)
    | none => (.waitReady 2000, { m with started := true })

/-! ## External stimuli -/

inductive Act
  | appChannel
  | appClose
  | connectOk
  | connectErr
  | chanOk
  | chanErr (msg : String)
  | topoPhaseDone
  | topoErr
  | connErrorEvent (id : Nat)
  | connCloseEvent (id : Nat)
  | chanErrorEvent (id : Nat) (msg : String)
  | chanCloseEvent (id : Nat)
  | timerFires
deriving DecidableEq, Repr

def step (c : Config) (s : Sys) : Act → Sys
  | .appChannel =>
      -- AmqpManager.prototype.channel, state-changing part
      if s.mgr.closed then s
      else if s.mgr.cachedChannel.isSome then s
      else if s.mgr.started then s
      else handleInput { s with mgr := { s.mgr with started := true } } .open_
  | .appClose =>
      -- AmqpManager.prototype.close calls this.fsm.close(), which is
      -- `transition('close')` (line 167); the onClosed listener is
      -- registered only after this returns.
      transition s .close
  | .connectOk =>
      -- the success callback of `Amqp.connect` (lines 47-57): register an
      -- 'error' listener on the new connection (and no other listener),
      -- `_.assign(this.memory, {connection, reconnects: 0})`, then
      -- `transition('assert')` — run whatever state the fsm is now in.
      if s.pendingConnect then
        let id := s.handles.nextConn
        let h := { s.handles with
          nextConn := id + 1
          openConns := s.handles.openConns ++ [id]
          connListeners := s.handles.connListeners ++ [(id, LKind.error_)] }
        let s1 := { s with
          pendingConnect := false
          handles := h
          memory := { s.memory with connection := some id, reconnects := some 0 } }
        transition s1 .assert
      else s
  | .connectErr =>
      -- the failure callback (lines 58-60): `this.handle('error', error)`
      if s.pendingConnect then
        handleInput { s with pendingConnect := false } (.error_ "connect failed")
      else s
  | .chanOk =>
      -- createChannel/createConfirmChannel resolves (lines 75-90):
      -- prefetch, `_.assign(this.memory, {channel})`, register 'error'
      -- and 'close' listeners on the channel, start assertTopology.
      if s.pendingCreateChannel then
        let id := s.handles.nextChan
        let h := { s.handles with
          nextChan := id + 1
          openChans := s.handles.openChans ++ [id]
          chanListeners :=
            s.handles.chanListeners ++ [(id, LKind.error_), (id, LKind.close_)] }
        { s with
          pendingCreateChannel := false
          handles := h
          memory := { s.memory with channel := some id }
          topoPhase := some TopoPhase.exchanges }
      else s
  | .chanErr msg =>
      -- createChannel rejects (lines 94-96): handle('channel_error')
      if s.pendingCreateChannel then
        handleInput { s with pendingCreateChannel := false } (.channel_error msg)
      else s
  | .topoPhaseDone =>
      -- one `Promise.all` collection of assertTopology completes; after
      -- the last, `.then(() => this.transition('connected'))` runs.
      match s.topoPhase with
      | some TopoPhase.exchanges =>
          appendOps { s with topoPhase := some TopoPhase.queues } (assertExchangesOps c)
      | some TopoPhase.queues =>
          appendOps { s with topoPhase := some TopoPhase.bindings } (assertQueuesOps c)
      | some TopoPhase.bindings =>
          transition (appendOps { s with topoPhase := none } (bindQueuesOps c)) .connected
      | none => s
  | .topoErr =>
      -- assertTopology rejects: the promise chain attaches no rejection
      -- handler to it (the error callback on line 94 belongs to the
      -- createChannel promise), so nothing reaches the fsm.
      { s with topoPhase := none }
  | .connErrorEvent id =>
      -- the transport emits 'error' on connection `id`: delivered only if
      -- the listener is still registered.
      if (id, LKind.error_) ∈ s.handles.connListeners then
        handleInput s .connection_error
      else s
  | .connCloseEvent _ =>
      -- the transport emits 'close' on a connection: the source never
      -- registers a 'close' listener on a connection, so nothing happens.
      s
  | .chanErrorEvent id msg =>
      if (id, LKind.error_) ∈ s.handles.chanListeners then
        handleInput s (.channel_error msg)
      else s
  | .chanCloseEvent id =>
      if (id, LKind.close_) ∈ s.handles.chanListeners then
        handleInput s .channel_close
      else s
  | .timerFires =>
      -- the reconnect `setTimeout` callback (lines 136-142): assign the
      -- captured attempt count into memory and transition('connect')
      -- unconditionally (the TODO on line 137 notes the missing stop check).
      match s.timers with
      | [] => s
      | r :: rest =>
          let s1 := { s with
            timers := rest
            memory := { s.memory with reconnects := some r } }
          transition s1 .connect

def runActs (c : Config) (s : Sys) : List Act → Sys
  | [] => s
  | a :: rest => runActs c (step c s a) rest

def statesTrace (c : Config) (s : Sys) : List Act → List FsmState
  | [] => [s.fsm]
  | a :: rest => s.fsm :: statesTrace c (step c s a) rest

/-- The three collection completions of one topology assertion, in the
order the promise chain sequences them. -/
def assertRun (c : Config) (s : Sys) : Sys :=
  step c (step c (step c s .topoPhaseDone) .topoPhaseDone) .topoPhaseDone

/-- `this.fsm.close()` as invoked by `AmqpManager.prototype.close`. -/
def mgrCloseStep (s : Sys) : Sys :=
  transition s .close

def reconnectAttempts (es : List Event) : List Nat :=
  es.filterMap fun e => match e with
    | .reconnectEvt n _ => some n
    | _ => none

/-! ## Initial state and concrete configurations -/

def initMemory : Memory := { connection := none, channel := none, reconnects := none }

def initHandles : Handles :=
  { nextConn := 0, nextChan := 0, openConns := [], openChans := []
    connListeners := [], chanListeners := [] }

def initMgr : MgrState := { closed := false, cachedChannel := none, started := false }

def initSys : Sys :=
  { fsm := .uninitialized, memory := initMemory, handles := initHandles
    timers := [], pendingConnect := false, pendingCreateChannel := false
    topoPhase := none, mgr := initMgr, events := [] }

/-- The merged defaults of the manager constructor with no topology. -/
def defaultConfig : Config :=
  { connection :=
      { protocol := "amqp", user := "guest", password := "guest"
        host := "localhost", port := 5672, vhost := "/" }
    channel := { prefetch := 1, confirm := true }
    exchanges := [], queues := [], bindings := [] }

/-- A configuration with one exchange, one queue and one binding. -/
def topoConfig : Config :=
  { connection :=
      { protocol := "amqp", user := "guest", password := "guest"
        host := "localhost", port := 5672, vhost := "/" }
    channel := { prefetch := 1, confirm := true }
    exchanges := [{ exchange := "E", type := "topic", options := "" }]
    queues := [{ queue := "Q", options := "" }]
    bindings := [{ queue := "Q", exchange := "E", pattern := "events.#" }] }

/-! ## The manager constructor (lines 180-205)

`this.config = _.defaultsDeep(config, {...})`: lodash `defaultsDeep`
recursively assigns every missing field of its first argument from the
defaults object and returns that same (mutated) object, so after
construction `this.config` and the caller's configuration object are one
object holding the deep-filled record. -/

structure RawConnParams where
  heartbeat : Option Nat
deriving DecidableEq, Repr

structure RawConnection where
  protocol : Option String
  user : Option String
  password : Option String
  host : Option String
  port : Option Nat
  vhost : Option String
  params : Option RawConnParams
  options : Option (Option String)
deriving DecidableEq, Repr

structure RawChannel where
  prefetch : Option Nat
  confirm : Option Bool
deriving DecidableEq, Repr

structure RawConfig where
  connection : Option RawConnection
  channel : Option RawChannel
  queues : Option (List TopoQueue)
  exchanges : Option (List TopoExchange)
  bindings : Option (List TopoBinding)
deriving DecidableEq, Repr

def fillParams (p : RawConnParams) : RawConnParams :=
  { heartbeat := some (p.heartbeat.getD 30) }

def fillConnection (c : RawConnection) : RawConnection :=
  { protocol := some (c.protocol.getD "amqp")
    user := some (c.user.getD "guest")
    password := some (c.password.getD "guest")
    host := some (c.host.getD "localhost")
    port := some (c.port.getD 5672)
    vhost := some (c.vhost.getD "/")
    params := some (fillParams (c.params.getD { heartbeat := none }))
    options := some (c.options.getD none) }

def fillChannel (c : RawChannel) : RawChannel :=
  { prefetch := some (c.prefetch.getD 1)
    confirm := some (c.confirm.getD true) }

def defaultsDeep (c : RawConfig) : RawConfig :=
  { connection := some (fillConnection (c.connection.getD
      { protocol := none, user := none, password := none, host := none
        port := none, vhost := none, params := none, options := none }))
    channel := some (fillChannel (c.channel.getD { prefetch := none, confirm := none }))
    queues := some (c.queues.getD [])
    exchanges := some (c.exchanges.getD [])
    bindings := some (c.bindings.getD []) }

/-- After `new AmqpManager(config)`: `config` holds the manager's merged
configuration and the caller's object is that same object. -/
structure AmqpManagerInit where
  config : RawConfig
  callerConfig : RawConfig
deriving DecidableEq, Repr

def amqpManagerNew (c : RawConfig) : AmqpManagerInit :=
  let d := defaultsDeep c
  { config := d, callerConfig := d }

def emptyRawConfig : RawConfig :=
  { connection := none, channel := none, queues := none, exchanges := none
    bindings := none }

/-- A caller configuration giving only the host. -/
def c10Input : RawConfig :=
  { connection := some
      { protocol := none, user := none, password := none, host := some "myhost"
        port := none, vhost := none, params := none, options := none }
    channel := none, queues := none, exchanges := none, bindings := none }

/-! ## Concrete runs used by the claims -/

/-- open; connect succeeds; channel creation fails; backoff timer fires;
connect succeeds again. -/
def c1Trace : List Act :=
  [.appChannel, .connectOk, .chanErr "boom", .timerFires, .connectOk]

/-- open; connect succeeds; channel creation fails; `close()`; the pending
backoff timer fires. -/
def c2Trace : List Act :=
  [.appChannel, .connectOk, .chanErr "boom", .appClose, .timerFires]

/-- open; connect succeeds; channel created; the channel emits an error
whose message carries the precondition-failed marker. -/
def c3Trace : List Act :=
  [.appChannel, .connectOk, .chanOk,
   .chanErrorEvent 0 "PRECONDITION-FAILED - expected durable true"]

/-- open; connect succeeds; channel creation fails; timer fires; connect
succeeds again; channel creation fails again. -/
def c4Trace : List Act :=
  [.appChannel, .connectOk, .chanErr "boom", .timerFires, .connectOk, .chanErr "boom"]

/-- open; connect succeeds; channel creation fails; `close()`; the timer
fires; connect succeeds; channel created; the topology collections
complete, so `connected` is entered and `ready` fires after `close()`. -/
def c7Trace : List Act :=
  [.appChannel, .connectOk, .chanErr "boom", .appClose, .timerFires,
   .connectOk, .chanOk, .topoPhaseDone, .topoPhaseDone, .topoPhaseDone]

/-- open; connect succeeds; channel created; topology completes (machine
connected); the transport emits `close` on the connection. -/
def c8Trace : List Act :=
  [.appChannel, .connectOk, .chanOk, .topoPhaseDone, .topoPhaseDone,
   .topoPhaseDone, .connCloseEvent 0]

/-- A system inside the assert phase with the exchange collection of the
topology assertion outstanding. -/
def c6Sys : Sys :=
  { initSys with fsm := FsmState.assert, topoPhase := some TopoPhase.exchanges }

/-- A connected system whose transport handle 0 carries the one listener
the connect callback registers. -/
def c8WitSys : Sys :=
  { initSys with
    fsm := FsmState.connected
    handles := { initHandles with connListeners := [(0, LKind.error_)] } }

/-! ## Claims -/

/-- Counterexample to claim C1: after open, a successful connect, a failed
channel creation, the backoff timer and a second successful connect, two
transport connection handles are open at once, and the first handle's
error listener is still attached — entering Reconnecting neither closed
the live connection nor detached its listeners. -/
theorem c1_counterexample :
    (runActs defaultConfig initSys c1Trace).handles.openConns.length = 2 ∧
    (0, LKind.error_) ∈ (runActs defaultConfig initSys c1Trace).handles.connListeners := by
  decide

/-- Claim C1, amended: entering the Reconnecting state performs no cleanup
at all — the open-handle sets, the registered listeners and the session
memory are exactly those of the pre-transition state (cleanup happens only
on entering the error and close states, and only the close state closes
the connection), so open handles accumulate across reconnect cycles. -/
theorem c1_reconnect_no_cleanup (s : Sys) (h : s.fsm ≠ FsmState.reconnect) :
    (transition s FsmState.reconnect).handles = s.handles ∧
    (transition s FsmState.reconnect).memory = s.memory := by
  simp [transition, enter, emit, h]

/-- Witness for C1 at the initial state. -/
theorem c1_witness :
    (transition initSys FsmState.reconnect).handles = initSys.handles ∧
    (transition initSys FsmState.reconnect).memory = initSys.memory :=
  c1_reconnect_no_cleanup initSys (by decide)

/-- Claim C2 (code bug, acknowledged by the source's TODO on line 137):
after `close()` is invoked while a reconnect backoff timer is pending, the
timer callback still runs `transition('connect')`, so the machine leaves
the terminal close state and re-enters Connecting with a fresh transport
connect in flight. -/
theorem c2_close_then_timer_reconnects :
    (runActs defaultConfig initSys (c2Trace.take 4)).fsm = FsmState.close ∧
    (runActs defaultConfig initSys (c2Trace.take 4)).mgr.closed = true ∧
    (runActs defaultConfig initSys c2Trace).fsm = FsmState.connect ∧
    (runActs defaultConfig initSys c2Trace).pendingConnect = true := by
  decide

/-- Counterexample to claim C3: a channel error during topology assertion
whose message carries the PRECONDITION-FAILED marker leaves the machine in
the assert state — it does not transition to the error-terminal state. -/
theorem c3_counterexample :
    (runActs defaultConfig initSys c3Trace).fsm = FsmState.assert ∧
    ¬ (runActs defaultConfig initSys c3Trace).fsm = FsmState.error := by
  decide

/-- Claim C3, amended: during topology assertion a channel error whose
message matches the precondition-failed test is fatal in the sense that it
is not retried — no reconnect is triggered (no backoff timer is scheduled)
and the cause is surfaced via the `error` event — but the machine stays in
the assert state rather than entering the error-terminal state; every
other error in that phase — a non-precondition channel error, a transport
(connection) error, or a channel close — routes to Reconnecting. -/
theorem c3_channel_error_classification (s : Sys) (msg : String)
    (h : s.fsm = FsmState.assert) :
    (preconditionFailed msg = true →
      (handleInput s (.channel_error msg)).fsm = FsmState.assert ∧
      (handleInput s (.channel_error msg)).events = s.events ++ [Event.errorEvt msg] ∧
      (handleInput s (.channel_error msg)).timers = s.timers) ∧
    (preconditionFailed msg = false →
      (handleInput s (.channel_error msg)).fsm = FsmState.reconnect) ∧
    (handleInput s Input.connection_error).fsm = FsmState.reconnect ∧
    (handleInput s Input.channel_close).fsm = FsmState.reconnect := by
  refine ⟨?_, ?_, ?_, ?_⟩
  · intro hp
    simp [handleInput, h, hp, emit]
  · intro hp
    simp [handleInput, h, hp, transition, enter, emit]
  · simp [handleInput, h, transition, enter, emit]
  · simp [handleInput, h, transition, enter, emit]

/-- Witness for C3 at a concrete assert-phase state and message. -/
theorem c3_witness :
    (handleInput { initSys with fsm := FsmState.assert }
      (.channel_error "PRECONDITION-FAILED")).fsm = FsmState.assert :=
  ((c3_channel_error_classification { initSys with fsm := FsmState.assert }
    "PRECONDITION-FAILED" rfl).1 (by decide)).1

/-- Counterexample to claim C4: when the transport connect succeeds but
channel creation then fails, twice in a row, the two reconnect attempts
are both numbered 1 — the counter does not strictly increase — and the
counter is already reset to 0 after the second successful connect even
though the machine never once entered the Connected state. -/
theorem c4_counterexample :
    reconnectAttempts (runActs defaultConfig initSys c4Trace).events = [1, 1] ∧
    FsmState.connected ∉ statesTrace defaultConfig initSys c4Trace ∧
    (runActs defaultConfig initSys (c4Trace.take 5)).memory.reconnects = some 0 := by
  decide

/-- Claim C4, amended: each entry into Reconnecting emits and schedules an
attempt number exactly one above the stored counter, and the backoff timer
stores that number; but the counter resets to 0 on every successful
transport connect — on entry into the topology-assertion phase, before
Connected is reached — so across assert-phase failures the attempt
numbers restart at 1 instead of strictly increasing. -/
theorem c4_reconnect_counter (c : Config) (s : Sys) :
    (s.pendingConnect = true →
      (step c s Act.connectOk).memory.reconnects = some 0) ∧
    (s.fsm ≠ FsmState.reconnect →
      (transition s FsmState.reconnect).events = s.events ++
        [Event.reconnectEvt (s.memory.reconnects.getD 0 + 1)
          (waitTimeMs (s.memory.reconnects.getD 0 + 1))] ∧
      (transition s FsmState.reconnect).timers =
        s.timers ++ [s.memory.reconnects.getD 0 + 1]) ∧
    (∀ r rest, s.timers = r :: rest →
      (step c s Act.timerFires).memory.reconnects = some r) := by
  refine ⟨?_, ?_, ?_⟩
  · intro h
    simp only [step, h, if_true]
    unfold transition
    split <;> simp [enter]
  · intro h
    simp [transition, enter, emit, h]
  · intro r rest h
    simp only [step, h]
    unfold transition
    split <;> simp [enter]

/-- Witness for C4: a successful connect resets the stored counter. -/
theorem c4_witness :
    (step defaultConfig { initSys with pendingConnect := true }
      Act.connectOk).memory.reconnects = some 0 :=
  (c4_reconnect_counter defaultConfig { initSys with pendingConnect := true }).1 rfl

/-- Claim C5 (confirmed): entering Reconnecting emits a wait time of
`min(2^N * 100, 60000)` milliseconds for attempt number N (one above the
stored counter); this doubles per attempt below the cap, equals `2^N*100`
(< 60 s) for N = 1..9, and is capped at exactly 60000 ms for every
N ≥ 10. -/
theorem c5_backoff_formula :
    (∀ s : Sys, s.fsm ≠ FsmState.reconnect →
      (transition s FsmState.reconnect).events = s.events ++
        [Event.reconnectEvt (s.memory.reconnects.getD 0 + 1)
          (min (2 ^ (s.memory.reconnects.getD 0 + 1) * 100) 60000)]) ∧
    (∀ n : Nat, 1 ≤ n → n ≤ 20 → waitTimeMs n = min (2 ^ n * 100) 60000) ∧
    (∀ n : Nat, 1 ≤ n → n < 10 → waitTimeMs n = 2 ^ n * 100 ∧ waitTimeMs n < 60000) ∧
    (∀ n : Nat, 1 ≤ n → n + 1 < 10 → waitTimeMs (n + 1) = 2 * waitTimeMs n) ∧
    (∀ n : Nat, 10 ≤ n → waitTimeMs n = 60000) := by
  have below : ∀ n : Nat, n < 10 → waitTimeMs n = 2 ^ n * 100 ∧ waitTimeMs n < 60000 := by
    intro n h2
    have hp : 2 ^ n ≤ 2 ^ 9 := Nat.pow_le_pow_right (by norm_num) (by omega)
    have h512 : (2 : Nat) ^ 9 = 512 := by norm_num
    rw [h512] at hp
    constructor <;> simp only [waitTimeMs] <;> omega
  refine ⟨?_, ?_, ?_, ?_, ?_⟩
  · intro s h
    simp [transition, enter, emit, waitTimeMs, h]
  · intro n _ _
    simp [waitTimeMs]
  · intro n _ h2
    exact below n h2
  · intro n h1 h2
    have e1 := (below n (by omega)).1
    have e2 := (below (n + 1) h2).1
    rw [e1, e2, pow_succ]
    ring
  · intro n h
    have hp : 2 ^ 10 ≤ 2 ^ n := Nat.pow_le_pow_right (by norm_num) h
    have h1024 : (2 : Nat) ^ 10 = 1024 := by norm_num
    rw [h1024] at hp
    simp only [waitTimeMs]
    omega

/-- Witness for C5: the cap is effective at attempt 12. -/
theorem c5_witness : waitTimeMs 12 = 60000 :=
  c5_backoff_formula.2.2.2.2 12 (by norm_num)

/-- In a concatenation whose front elements are all non-binding operations
and whose back elements are all bindings, every non-binding index precedes
every binding index. -/
theorem nonbinding_before_binding (xs ys : List TopoOp)
    (hx : ∀ a ∈ xs, a.isBinding = false) (hy : ∀ a ∈ ys, a.isBinding = true)
    (i j : Nat) (hi : i < (xs ++ ys).length) (hj : j < (xs ++ ys).length)
    (h1 : ((xs ++ ys)[i]).isBinding = false)
    (h2 : ((xs ++ ys)[j]).isBinding = true) : i < j := by
  have hlen : (xs ++ ys).length = xs.length + ys.length := List.length_append xs ys
  have hilt : i < xs.length := by
    by_contra hc
    push_neg at hc
    have hsub : i - xs.length < ys.length := by omega
    have hrw : (xs ++ ys)[i] = ys[i - xs.length] := List.getElem_append_right hc
    have hmem : ys[i - xs.length] ∈ ys := List.getElem_mem hsub
    rw [hrw, hy _ hmem] at h1
    simp at h1
  have hjge : xs.length ≤ j := by
    by_contra hc
    push_neg at hc
    have hrw : (xs ++ ys)[j] = xs[j] := List.getElem_append_left hc
    have hmem : xs[j] ∈ xs := List.getElem_mem hc
    rw [hrw, hx _ hmem] at h2
    simp at h2
  omega

/-- Claim C6 (confirmed): from a state with the exchange collection of the
topology assertion outstanding, completing the three collections in the
order the promise chain sequences them appends to the trace precisely all
exchange declarations, then all queue declarations, then all bindings,
followed by the `ready` event — so `ready` is observable only after every
topology declaration has completed, the machine is then Connected, and in
the declaration list every exchange or queue operation precedes every
binding. -/
theorem c6_topology_order (c : Config) (s : Sys)
    (h1 : s.topoPhase = some TopoPhase.exchanges) (h2 : s.fsm ≠ FsmState.connected) :
    (assertRun c s).events =
      s.events ++ (assertTopologyOps c).map Event.topo ++ [Event.ready s.memory] ∧
    (assertRun c s).fsm = FsmState.connected ∧
    ∀ (i j : Nat) (hi : i < (assertTopologyOps c).length)
      (hj : j < (assertTopologyOps c).length),
      ((assertTopologyOps c)[i]).isBinding = false →
      ((assertTopologyOps c)[j]).isBinding = true → i < j := by
  refine ⟨?_, ?_, ?_⟩
  · simp [assertRun, step, h1, appendOps, transition, enter, emit, h2,
      assertTopologyOps, List.map_append, List.append_assoc]
  · simp [assertRun, step, h1, appendOps, transition, enter, emit, h2]
  · intro i j hi hj hb1 hb2
    refine nonbinding_before_binding (assertExchangesOps c ++ assertQueuesOps c)
      (bindQueuesOps c) ?_ ?_ i j hi hj hb1 hb2
    · intro a ha
      rcases List.mem_append.1 ha with hx | hx
      · obtain ⟨e, _, rfl⟩ := List.mem_map.1 hx
        rfl
      · obtain ⟨q, _, rfl⟩ := List.mem_map.1 hx
        rfl
    · intro a ha
      obtain ⟨b, _, rfl⟩ := List.mem_map.1 ha
      rfl

/-- Witness for C6 on the one-exchange, one-queue, one-binding
configuration. -/
theorem c6_witness :
    (assertRun topoConfig c6Sys).fsm = FsmState.connected :=
  (c6_topology_order topoConfig c6Sys rfl (by decide)).2.1

/-- Counterexample to claim C7: a `ready` fired after `close()` (reachable
because the pending backoff timer reconnects even after close) leaves the
manager with a cached channel while the closed flag is set; `channel()`
then rejects with the closed error instead of resolving with the cached
channel, because the closed check precedes the cache check. -/
theorem c7_counterexample :
    (runActs defaultConfig initSys c7Trace).mgr.closed = true ∧
    (runActs defaultConfig initSys c7Trace).mgr.cachedChannel = some 0 ∧
    (channelCall (runActs defaultConfig initSys c7Trace).mgr).1 =
      ChannelOutcome.rejectClosed := by
  decide

/-- Claim C7, amended: `channel()` first rejects with the closed error
whenever the manager has been closed — even when a channel is cached;
otherwise it resolves with the cached channel when one is present;
otherwise it starts waiting on the next `ready` under the 2000 ms timeout,
setting the started flag; and once the started flag is set a further
`channel()` call never opens the lifecycle again (the state is unchanged). -/
theorem c7_channel_call_behavior (m : MgrState) :
    (m.closed = true → channelCall m = (ChannelOutcome.rejectClosed, m)) ∧
    (m.closed = false → ∀ ch, m.cachedChannel = some ch →
      channelCall m = (ChannelOutcome.resolveCached ch, m)) ∧
    (m.closed = false → m.cachedChannel = none →
      channelCall m = (ChannelOutcome.waitReady 2000, { m with started := true })) ∧
    (∀ (c : Config) (s : Sys), s.mgr.started = true → step c s Act.appChannel = s) := by
  refine ⟨?_, ?_, ?_, ?_⟩
  · intro h
    simp [channelCall, h]
  · intro h ch hch
    simp [channelCall, h, hch]
  · intro h hch
    simp [channelCall, h, hch]
  · intro c s h
    simp only [step, h, if_true]
    split
    · rfl
    · exact ite_self s

/-- Witness for C7: a closed manager holding a cached channel rejects. -/
theorem c7_witness :
    channelCall { closed := true, cachedChannel := some 0, started := true } =
      (ChannelOutcome.rejectClosed,
        { closed := true, cachedChannel := some 0, started := true }) :=
  (c7_channel_call_behavior
    { closed := true, cachedChannel := some 0, started := true }).1 rfl

/-- Counterexample to claim C8: after a successful connect and topology
assertion the connection handle carries no `close` listener (only the
`error` listener the connect callback registered), and a transport-level
`close` event leaves the machine in Connected — it does not transition to
Reconnecting. -/
theorem c8_counterexample :
    ¬ (0, LKind.close_) ∈ (runActs defaultConfig initSys
        (c8Trace.take 6)).handles.connListeners ∧
    (runActs defaultConfig initSys c8Trace).fsm = FsmState.connected := by
  decide

/-- Claim C8, amended: a successful transport connect registers exactly one
listener on the new connection handle — the `error` listener — and no
`close` listener, so a transport-level `close` event never reaches the
machine (the system is unchanged); in the Connected state a transport
`error` event, a channel `error` event and a channel `close` event (whose
listeners are registered) each transition the machine to Reconnecting. -/
theorem c8_connect_listeners (c : Config) (s : Sys) (id : Nat) (msg : String) :
    (s.pendingConnect = true →
      (step c s Act.connectOk).handles.connListeners =
        s.handles.connListeners ++ [(s.handles.nextConn, LKind.error_)]) ∧
    (step c s (Act.connCloseEvent id) = s) ∧
    (s.fsm = FsmState.connected →
      ((id, LKind.error_) ∈ s.handles.connListeners →
        (step c s (Act.connErrorEvent id)).fsm = FsmState.reconnect) ∧
      ((id, LKind.error_) ∈ s.handles.chanListeners →
        (step c s (Act.chanErrorEvent id msg)).fsm = FsmState.reconnect) ∧
      ((id, LKind.close_) ∈ s.handles.chanListeners →
        (step c s (Act.chanCloseEvent id)).fsm = FsmState.reconnect)) := by
  refine ⟨?_, ?_, ?_⟩
  · intro h
    simp only [step, h, if_true]
    unfold transition
    split <;> simp [enter]
  · rfl
  · intro h
    refine ⟨?_, ?_, ?_⟩ <;> intro hm <;>
      simp [step, hm, handleInput, h, transition, enter, emit]

/-- Witness for C8: a transport error in Connected reconnects. -/
theorem c8_witness :
    (step defaultConfig c8WitSys (Act.connErrorEvent 0)).fsm = FsmState.reconnect :=
  ((c8_connect_listeners defaultConfig c8WitSys 0 "").2.2 rfl).1 (by decide)

/-- Claim C9 (code bug): `AmqpManager.prototype.close` runs
`this.fsm.close()` — which synchronously enters the close state and emits
the `close` event — and only then registers the `onClosed` resolver on the
fsm, so the one `close` emission happens before the resolver exists; from
the resulting state every further stimulus (a repeated `close()` included)
leaves the system unchanged, so no later `close` event ever fires and the
promise returned by `close()` never resolves. -/
theorem c9_close_never_resolves :
    (mgrCloseStep initSys).events = [Event.closeEvt] ∧
    ∀ acts : List Act, runActs defaultConfig (mgrCloseStep initSys) acts =
      mgrCloseStep initSys := by
  have hstep : ∀ a : Act, step defaultConfig (mgrCloseStep initSys) a =
      mgrCloseStep initSys := by
    intro a
    cases a <;> rfl
  refine ⟨rfl, ?_⟩
  intro acts
  induction acts with
  | nil => rfl
  | cons a rest ih =>
      simp only [runActs]
      rw [hstep a]
      exact ih

/-- Counterexample to claim C10: constructing the manager with a
configuration that gives only the connection host leaves the caller's
configuration object changed — `defaultsDeep` has filled the missing
fields in place. -/
theorem c10_counterexample :
    (amqpManagerNew c10Input).callerConfig ≠ c10Input := by
  decide

/-- Claim C10, amended: at construction the caller's configuration object
is mutated in place: `defaultsDeep` assigns every missing field of it from
the defaults and the manager keeps that same object, so afterwards the
caller's object equals the deep-filled record and differs from the
original whenever a defaulted field was absent (no later operation touches
the configuration). -/
theorem c10_defaults_mutation (c : RawConfig) :
    amqpManagerNew c = { config := defaultsDeep c, callerConfig := defaultsDeep c } ∧
    (c.connection = none → (amqpManagerNew c).callerConfig ≠ c) := by
  constructor
  · rfl
  · intro h hc
    have h2 : (amqpManagerNew c).callerConfig.connection = c.connection :=
      congrArg RawConfig.connection hc
    rw [h] at h2
    simp [amqpManagerNew, defaultsDeep] at h2

/-- Witness for C10 at the empty caller configuration. -/
theorem c10_witness :
    (amqpManagerNew emptyRawConfig).callerConfig ≠ emptyRawConfig :=
  (c10_defaults_mutation emptyRawConfig).2 rfl
